import Mathlib

/-!
Shallow embedding of the map-relative localization orchestrator implemented in
`src/src/matching/matching.cpp` (class `Matching` of namespace
`lidar_localization`).

Modelling decisions:
* `Eigen::Matrix4f` poses become 4x4 rational matrices; `float` map
  coordinates and box edges become rationals.
* Point clouds become lists of points; each point carries an `isFinite` flag
  modelling whether all of its coordinates are finite (non-NaN), which is what
  `pcl::removeNaNFromPointCloud` tests.
* The external collaborators (voxel/no-op filters, the box filter and its
  edges, the NDT registration engine, the scan-context index) are parameters
  of a `MatchingConfig` record of pure functions; the orchestrator code under
  verification is translated statement by statement.
* The C++ function-local `static` variables (`gnss_cnt` in `SetGNSSPose`;
  `step_pose`, `last_pose`, `predict_pose` in `Update`) become fields of the
  state record, together with an `update_called` flag that models the one-time
  initialization of `Update`'s statics on the first call.
-/

/-- Poses: 4x4 rational matrices modelling `Eigen::Matrix4f`. -/
abbrev Pose : Type := Matrix (Fin 4) (Fin 4) ℚ

/-- One point of a cloud; `isFinite` models finiteness (non-NaN) of the
coordinates, the property tested by `pcl::removeNaNFromPointCloud`. -/
structure PointXYZ where
  x : ℚ
  y : ℚ
  z : ℚ
  isFinite : Bool
deriving DecidableEq

/-- Point clouds modelling `CloudData::CLOUD`. -/
abbrev Cloud : Type := List PointXYZ

/-- Computable general matrix inverse, modelling `Eigen::Matrix4f::inverse()`
(for invertible input; agrees with Mathlib's `Matrix.inv`, see
`poseInv_eq_inv`). -/
def poseInv (A : Pose) : Pose := A.det⁻¹ • A.adjugate

/-- Action of `pcl::transformPointCloud` on a single point: homogeneous
4x4-transform of the coordinates; non-coordinate fields are kept. -/
def transformPoint (m : Pose) (p : PointXYZ) : PointXYZ :=
  { x := m 0 0 * p.x + m 0 1 * p.y + m 0 2 * p.z + m 0 3
    y := m 1 0 * p.x + m 1 1 * p.y + m 1 2 * p.z + m 1 3
    z := m 2 0 * p.x + m 2 1 * p.y + m 2 2 * p.z + m 2 3
    isFinite := p.isFinite }

/-- External collaborators fixed at configuration time (`InitWithConfig`):
the three cloud filters, the box (region) filter with its edge report, the
registration engine (`ScanMatch source seed target = (result cloud, refined
pose)`) and the scan-context index (`DetectLoopClosure`). -/
structure MatchingConfig where
  global_map_filter : Cloud → Cloud
  local_map_filter : Cloud → Cloud
  frame_filter : Cloud → Cloud
  box_filter : ℚ × ℚ × ℚ → Cloud → Cloud
  box_edge : ℚ × ℚ × ℚ → Fin 6 → ℚ
  scan_match : Cloud → Pose → Cloud → Cloud × Pose
  scan_context : Cloud → Option Pose

/-- The mutable state of a `Matching` object, including the function-local
statics of `Update` and `SetGNSSPose`. -/
structure MatchingState where
  global_map : Cloud
  local_map : Cloud
  current_scan : Cloud
  registration_target : Cloud
  box_origin : ℚ × ℚ × ℚ
  current_gnss_pose : Pose
  init_pose : Pose
  has_inited : Bool
  has_new_global_map : Bool
  has_new_local_map : Bool
  gnss_cnt : ℕ
  step_pose : Pose
  last_pose : Pose
  predict_pose : Pose
  update_called : Bool

namespace Matching

/-- State of a freshly constructed `Matching` object before `InitGlobalMap`
and the constructor's `ResetLocalMap(0,0,0)` run.  `gnss_cnt = 0` and the
identity values for the `Update` statics come from the source
(`static int gnss_cnt = 0`, `static ... = Eigen::Matrix4f::Identity()`).
Modelled from the spec: the class header declaring the in-class member
initializers is not under src/, so the member defaults (identity
`current_gnss_pose_` / `init_pose_`, all flags false) follow the spec's
"initial = Uninitialized" and "default to identity" wording. -/
def initialState : MatchingState where
  global_map := []
  local_map := []
  current_scan := []
  registration_target := []
  box_origin := (0, 0, 0)
  current_gnss_pose := 1
  init_pose := 1
  has_inited := false
  has_new_global_map := false
  has_new_local_map := false
  gnss_cnt := 0
  step_pose := 1
  last_pose := 1
  predict_pose := 1
  update_called := false

/-- Model of `Matching::ResetLocalMap`: set the box filter origin, cut the local map
out of the stored global map, re-target the registration engine, raise the
local-map dirty flag. -/
def ResetLocalMap (cfg : MatchingConfig) (x y z : ℚ) (s : MatchingState) : MatchingState :=
  let lm := cfg.box_filter (x, y, z) s.global_map
  { s with box_origin := (x, y, z)
           local_map := lm
           registration_target := lm
           has_new_local_map := true }

/-- Model of `Matching::InitGlobalMap`: load the map file (the loaded cloud is the
`loadedMap` argument), filter it in place with the local-map filter, raise the
global-map dirty flag. -/
def InitGlobalMap (cfg : MatchingConfig) (loadedMap : Cloud) (s : MatchingState) : MatchingState :=
  { s with global_map := cfg.local_map_filter loadedMap
           has_new_global_map := true }

/-- Model of the `Matching::Matching` constructor after config loading: `InitGlobalMap`
then `ResetLocalMap(0,0,0)`. -/
def mkMatching (cfg : MatchingConfig) (loadedMap : Cloud) : MatchingState :=
  ResetLocalMap cfg 0 0 0 (InitGlobalMap cfg loadedMap initialState)

/-- Model of `Matching::SetInitPose`: commit the initial pose and recenter the local
map on its translation. -/
def SetInitPose (cfg : MatchingConfig) (init_pose : Pose) (s : MatchingState) : MatchingState :=
  ResetLocalMap cfg (init_pose 0 3) (init_pose 1 3) (init_pose 2 3)
    { s with init_pose := init_pose }

/-- Model of `Matching::SetGNSSPose`: record the coarse fix; on the first call commit
it as initial pose; once the (pre-increment) counter exceeds 3, declare
tracking; finally increment the counter. -/
def SetGNSSPose (cfg : MatchingConfig) (gnss_pose : Pose) (s : MatchingState) : MatchingState :=
  let s1 := { s with current_gnss_pose := gnss_pose }
  let s2 :=
    if s1.gnss_cnt = 0 then SetInitPose cfg gnss_pose s1
    else if s1.gnss_cnt > 3 then { s1 with has_inited := true }
    else s1
  { s2 with gnss_cnt := s2.gnss_cnt + 1 }

/-- Model of `Matching::SetScanContextPose`: query the scan-context index; on failure
return `false` leaving the state untouched; on success commit the proposed
pose via `SetInitPose`, declare tracking and return `true`. -/
def SetScanContextPose (cfg : MatchingConfig) (s : MatchingState) (init_scan : Cloud) :
    MatchingState × Bool :=
  match cfg.scan_context init_scan with
  | none => (s, false)
  | some p => ({ SetInitPose cfg p s with has_inited := true }, true)

/-- Model of `Matching::SetInited`: manual tracking override. -/
def SetInited (s : MatchingState) : MatchingState :=
  { s with has_inited := true }

/-- Model of `Matching::GetInitPose`. -/
def GetInitPose (s : MatchingState) : Pose := s.init_pose

/-- Model of `Matching::GetGlobalMap`: downsample the stored global map for
visualization into a fresh cloud and clear the global-map dirty flag. -/
def GetGlobalMap (cfg : MatchingConfig) (s : MatchingState) : Cloud × MatchingState :=
  (cfg.global_map_filter s.global_map, { s with has_new_global_map := false })

/-- Model of `Matching::GetLocalMap`: returns the local map; no state change. -/
def GetLocalMap (s : MatchingState) : Cloud × MatchingState :=
  (s.local_map, s)

/-- Model of `Matching::GetCurrentScan`: returns the transformed current scan. -/
def GetCurrentScan (s : MatchingState) : Cloud × MatchingState :=
  (s.current_scan, s)

/-- Model of `Matching::HasInited` (the spec's `IsTracking()`). -/
def HasInited (s : MatchingState) : Bool := s.has_inited

/-- Model of `Matching::HasNewGlobalMap`. -/
def HasNewGlobalMap (s : MatchingState) : Bool := s.has_new_global_map

/-- Model of `Matching::HasNewLocalMap`. -/
def HasNewLocalMap (s : MatchingState) : Bool := s.has_new_local_map

/-- One-time initialization of `Update`'s function-local statics on the first
call: `last_pose = init_pose_`, `predict_pose = init_pose_`,
`step_pose = Identity`. -/
def updateStaticInit (s : MatchingState) : MatchingState :=
  if s.update_called then s
  else { s with step_pose := 1
                last_pose := s.init_pose
                predict_pose := s.init_pose
                update_called := true }

/-- The seed overwrite in `Update`: `if (!has_inited_) predict_pose =
current_gnss_pose_;`. -/
def updateSeedState (s : MatchingState) : MatchingState :=
  if s.has_inited then s else { s with predict_pose := s.current_gnss_pose }

/-- The predictor block of `Update`: `step_pose = last_pose.inverse() *
cloud_pose; predict_pose = cloud_pose * step_pose; last_pose = cloud_pose;`. -/
def predictorUpdate (s : MatchingState) (cloud_pose : Pose) : MatchingState :=
  let stepP := poseInv s.last_pose * cloud_pose
  { s with step_pose := stepP
           predict_pose := cloud_pose * stepP
           last_pose := cloud_pose }

/-- One iteration's guard of the refresh loop in `Update`: axis `i` is safe
when the pose's `i`-th translation coordinate is strictly farther than 50
from both `edge[2i]` and `edge[2i+1]`. -/
def axisSafe (cloud_pose : Pose) (edge : Fin 6 → ℚ) (i : Fin 3) : Bool :=
  decide (50 < |cloud_pose i.castSucc 3 - edge ⟨2 * i.val, by have h := i.isLt; omega⟩|) &&
  decide (50 < |cloud_pose i.castSucc 3 - edge ⟨2 * i.val + 1, by have h := i.isLt; omega⟩|)

/-- The refresh loop of `Update` over the remaining axes: `continue` on a
safe axis, otherwise `ResetLocalMap` on the pose translation and `break`. -/
def refreshLoop (cfg : MatchingConfig) (cloud_pose : Pose) (edge : Fin 6 → ℚ)
    (s : MatchingState) : List (Fin 3) → MatchingState
  | [] => s
  | i :: rest =>
      if axisSafe cloud_pose edge i then refreshLoop cfg cloud_pose edge s rest
      else ResetLocalMap cfg (cloud_pose 0 3) (cloud_pose 1 3) (cloud_pose 2 3) s

/-- The complete refresh policy evaluated at the end of `Update`: fetch the
current edges once, then run the three-axis loop. -/
def localMapRefresh (cfg : MatchingConfig) (cloud_pose : Pose) (s : MatchingState) :
    MatchingState :=
  refreshLoop cfg cloud_pose (cfg.box_edge s.box_origin) s [0, 1, 2]

/-- Model of `Matching::Update`: NaN removal in place on the caller's cloud, frame
downsampling, seed selection, registration, transformed-scan production,
predictor update, refresh policy.  Returns the new state, the caller's cloud
as rewritten in place by NaN removal, and the refined pose output parameter
`cloud_pose`. -/
def Update (cfg : MatchingConfig) (s : MatchingState) (cloud : Cloud) :
    MatchingState × Cloud × Pose :=
  let s1 := updateStaticInit s
  let cleaned := cloud.filter fun p => p.isFinite
  let filtered := cfg.frame_filter cleaned
  let s2 := updateSeedState s1
  let mr := cfg.scan_match filtered s2.predict_pose s2.registration_target
  let s3 := { s2 with current_scan := cleaned.map (transformPoint mr.2) }
  let s4 := predictorUpdate s3 mr.2
  (localMapRefresh cfg mr.2 s4, cleaned, mr.2)

end Matching

/-- The operations a host can drive a `Matching` object with after
construction (the spec's SubmitCoarseFix / SubmitPlaceRecognition /
MarkInitialized / Update). -/
inductive MatchingOp where
  | coarseFix (p : Pose)
  | placeRec (scan : Cloud)
  | markInited
  | scanUpdate (scan : Cloud)
  | readGlobalMap
  | readLocalMap
  | readCurrentScan

/-- Effect of one operation on the state (outputs discarded); the three reads
are the consumer queries `GetGlobalMap`, `GetLocalMap`, `GetCurrentScan`. -/
def stepOp (cfg : MatchingConfig) (s : MatchingState) : MatchingOp → MatchingState
  | .coarseFix p => Matching.SetGNSSPose cfg p s
  | .placeRec scan => (Matching.SetScanContextPose cfg s scan).1
  | .markInited => Matching.SetInited s
  | .scanUpdate scan => (Matching.Update cfg s scan).1
  | .readGlobalMap => (Matching.GetGlobalMap cfg s).2
  | .readLocalMap => (Matching.GetLocalMap s).2
  | .readCurrentScan => (Matching.GetCurrentScan s).2

/-- Run a sequence of operations. -/
def runOps (cfg : MatchingConfig) (s : MatchingState) (ops : List MatchingOp) : MatchingState :=
  ops.foldl (stepOp cfg) s

/-- Run a sequence of coarse fixes only (`SetGNSSPose` stream). -/
def runCoarse (cfg : MatchingConfig) (s : MatchingState) (poses : List Pose) : MatchingState :=
  poses.foldl (fun t p => Matching.SetGNSSPose cfg p t) s

/-- The spec's derived arbiter state: 0 = Uninitialized, 1 = CoarseFixPending
(a coarse fix has arrived, not yet tracking), 2 = Tracking. -/
def arbState (s : MatchingState) : ℕ :=
  if s.has_inited then 2 else if 0 < s.gnss_cnt then 1 else 0

/-- A concrete configuration with identity filters, an all-zero edge report,
a registration engine returning the identity pose, and a scan-context index
that never matches. -/
def cfgW : MatchingConfig where
  global_map_filter := fun c => c
  local_map_filter := fun c => c
  frame_filter := fun c => c
  box_filter := fun _ c => c
  box_edge := fun _ _ => 0
  scan_match := fun _ _ _ => ([], 1)
  scan_context := fun _ => none

/-- Variant of `cfgW` whose local-map filter actually downsamples (it drops
every point), as a voxel filter may. -/
def cfgDrop : MatchingConfig :=
  { cfgW with local_map_filter := fun _ => [] }

/-- Variant of `cfgW` whose edge report places every edge at 1000. -/
def cfgFar : MatchingConfig :=
  { cfgW with box_edge := fun _ _ => 1000 }

/-- Variant of `cfgW` whose scan-context index always proposes the identity
pose. -/
def cfgHit : MatchingConfig :=
  { cfgW with scan_context := fun _ => some 1 }

/-- A sample finite point. -/
def ptW : PointXYZ := { x := 0, y := 0, z := 0, isFinite := true }

/-- State reached from a fresh `Matching` object by two coarse fixes with
distinct poses: first the identity, then twice the identity matrix. -/
def sTwoFix : MatchingState :=
  Matching.SetGNSSPose cfgW ((2 : ℚ) • 1) (Matching.SetGNSSPose cfgW 1 (Matching.mkMatching cfgW []))

theorem poseInv_eq_inv (A : Pose) : poseInv A = A⁻¹ := by
  rw [Matrix.inv_def, Ring.inverse_eq_inv]
  rfl

namespace Matching

theorem ResetLocalMap_global_map (cfg : MatchingConfig) (x y z : ℚ) (s : MatchingState) :
    (ResetLocalMap cfg x y z s).global_map = s.global_map := rfl

theorem ResetLocalMap_has_inited (cfg : MatchingConfig) (x y z : ℚ) (s : MatchingState) :
    (ResetLocalMap cfg x y z s).has_inited = s.has_inited := rfl

theorem ResetLocalMap_gnss_cnt (cfg : MatchingConfig) (x y z : ℚ) (s : MatchingState) :
    (ResetLocalMap cfg x y z s).gnss_cnt = s.gnss_cnt := rfl

theorem ResetLocalMap_current_scan (cfg : MatchingConfig) (x y z : ℚ) (s : MatchingState) :
    (ResetLocalMap cfg x y z s).current_scan = s.current_scan := rfl

theorem ResetLocalMap_last_pose (cfg : MatchingConfig) (x y z : ℚ) (s : MatchingState) :
    (ResetLocalMap cfg x y z s).last_pose = s.last_pose := rfl

theorem ResetLocalMap_predict_pose (cfg : MatchingConfig) (x y z : ℚ) (s : MatchingState) :
    (ResetLocalMap cfg x y z s).predict_pose = s.predict_pose := rfl

theorem ResetLocalMap_step_pose (cfg : MatchingConfig) (x y z : ℚ) (s : MatchingState) :
    (ResetLocalMap cfg x y z s).step_pose = s.step_pose := rfl

theorem ResetLocalMap_local_map (cfg : MatchingConfig) (x y z : ℚ) (s : MatchingState) :
    (ResetLocalMap cfg x y z s).local_map = cfg.box_filter (x, y, z) s.global_map := rfl

theorem ResetLocalMap_box_origin (cfg : MatchingConfig) (x y z : ℚ) (s : MatchingState) :
    (ResetLocalMap cfg x y z s).box_origin = (x, y, z) := rfl

theorem refreshLoop_cases (cfg : MatchingConfig) (p : Pose) (e : Fin 6 → ℚ)
    (s : MatchingState) : ∀ l : List (Fin 3),
    refreshLoop cfg p e s l = s ∨
      refreshLoop cfg p e s l = ResetLocalMap cfg (p 0 3) (p 1 3) (p 2 3) s
  | [] => Or.inl rfl
  | i :: rest => by
      unfold refreshLoop
      split
      · exact refreshLoop_cases cfg p e s rest
      · exact Or.inr rfl

theorem localMapRefresh_cases (cfg : MatchingConfig) (p : Pose) (s : MatchingState) :
    localMapRefresh cfg p s = s ∨
      localMapRefresh cfg p s = ResetLocalMap cfg (p 0 3) (p 1 3) (p 2 3) s :=
  refreshLoop_cases cfg p (cfg.box_edge s.box_origin) s [0, 1, 2]

theorem localMapRefresh_global_map (cfg : MatchingConfig) (p : Pose) (s : MatchingState) :
    (localMapRefresh cfg p s).global_map = s.global_map := by
  rcases localMapRefresh_cases cfg p s with h | h <;> rw [h] <;> rfl

theorem localMapRefresh_has_inited (cfg : MatchingConfig) (p : Pose) (s : MatchingState) :
    (localMapRefresh cfg p s).has_inited = s.has_inited := by
  rcases localMapRefresh_cases cfg p s with h | h <;> rw [h] <;> rfl

theorem localMapRefresh_gnss_cnt (cfg : MatchingConfig) (p : Pose) (s : MatchingState) :
    (localMapRefresh cfg p s).gnss_cnt = s.gnss_cnt := by
  rcases localMapRefresh_cases cfg p s with h | h <;> rw [h] <;> rfl

theorem localMapRefresh_current_scan (cfg : MatchingConfig) (p : Pose) (s : MatchingState) :
    (localMapRefresh cfg p s).current_scan = s.current_scan := by
  rcases localMapRefresh_cases cfg p s with h | h <;> rw [h] <;> rfl

theorem localMapRefresh_last_pose (cfg : MatchingConfig) (p : Pose) (s : MatchingState) :
    (localMapRefresh cfg p s).last_pose = s.last_pose := by
  rcases localMapRefresh_cases cfg p s with h | h <;> rw [h] <;> rfl

theorem localMapRefresh_predict_pose (cfg : MatchingConfig) (p : Pose) (s : MatchingState) :
    (localMapRefresh cfg p s).predict_pose = s.predict_pose := by
  rcases localMapRefresh_cases cfg p s with h | h <;> rw [h] <;> rfl

theorem updateStaticInit_has_inited (s : MatchingState) :
    (updateStaticInit s).has_inited = s.has_inited := by
  unfold updateStaticInit; split <;> rfl

theorem updateStaticInit_gnss_cnt (s : MatchingState) :
    (updateStaticInit s).gnss_cnt = s.gnss_cnt := by
  unfold updateStaticInit; split <;> rfl

theorem updateStaticInit_global_map (s : MatchingState) :
    (updateStaticInit s).global_map = s.global_map := by
  unfold updateStaticInit; split <;> rfl

theorem updateStaticInit_current_scan (s : MatchingState) :
    (updateStaticInit s).current_scan = s.current_scan := by
  unfold updateStaticInit; split <;> rfl

theorem updateStaticInit_current_gnss_pose (s : MatchingState) :
    (updateStaticInit s).current_gnss_pose = s.current_gnss_pose := by
  unfold updateStaticInit; split <;> rfl

theorem updateStaticInit_registration_target (s : MatchingState) :
    (updateStaticInit s).registration_target = s.registration_target := by
  unfold updateStaticInit; split <;> rfl

theorem updateStaticInit_of_called (s : MatchingState) (h : s.update_called = true) :
    updateStaticInit s = s := by
  unfold updateStaticInit; simp [h]

theorem updateSeedState_has_inited (s : MatchingState) :
    (updateSeedState s).has_inited = s.has_inited := by
  unfold updateSeedState; split <;> rfl

theorem updateSeedState_gnss_cnt (s : MatchingState) :
    (updateSeedState s).gnss_cnt = s.gnss_cnt := by
  unfold updateSeedState; split <;> rfl

theorem updateSeedState_global_map (s : MatchingState) :
    (updateSeedState s).global_map = s.global_map := by
  unfold updateSeedState; split <;> rfl

theorem updateSeedState_current_scan (s : MatchingState) :
    (updateSeedState s).current_scan = s.current_scan := by
  unfold updateSeedState; split <;> rfl

theorem updateSeedState_last_pose (s : MatchingState) :
    (updateSeedState s).last_pose = s.last_pose := by
  unfold updateSeedState; split <;> rfl

theorem updateSeedState_registration_target (s : MatchingState) :
    (updateSeedState s).registration_target = s.registration_target := by
  unfold updateSeedState; split <;> rfl

theorem updateSeedState_of_not_inited (s : MatchingState) (h : s.has_inited = false) :
    (updateSeedState s).predict_pose = s.current_gnss_pose := by
  unfold updateSeedState; simp [h]

theorem updateSeedState_of_inited (s : MatchingState) (h : s.has_inited = true) :
    updateSeedState s = s := by
  unfold updateSeedState; simp [h]

theorem predictorUpdate_has_inited (s : MatchingState) (p : Pose) :
    (predictorUpdate s p).has_inited = s.has_inited := rfl

theorem predictorUpdate_gnss_cnt (s : MatchingState) (p : Pose) :
    (predictorUpdate s p).gnss_cnt = s.gnss_cnt := rfl

theorem predictorUpdate_global_map (s : MatchingState) (p : Pose) :
    (predictorUpdate s p).global_map = s.global_map := rfl

theorem predictorUpdate_current_scan (s : MatchingState) (p : Pose) :
    (predictorUpdate s p).current_scan = s.current_scan := rfl

theorem predictorUpdate_last_pose (s : MatchingState) (p : Pose) :
    (predictorUpdate s p).last_pose = p := rfl

theorem predictorUpdate_predict_pose (s : MatchingState) (p : Pose) :
    (predictorUpdate s p).predict_pose = p * (poseInv s.last_pose * p) := rfl

theorem predictorUpdate_step_pose (s : MatchingState) (p : Pose) :
    (predictorUpdate s p).step_pose = poseInv s.last_pose * p := rfl

theorem Update_has_inited (cfg : MatchingConfig) (s : MatchingState) (c : Cloud) :
    ((Update cfg s c).1).has_inited = s.has_inited := by
  simp [Update, localMapRefresh_has_inited, predictorUpdate_has_inited,
    updateSeedState_has_inited, updateStaticInit_has_inited]

theorem Update_gnss_cnt (cfg : MatchingConfig) (s : MatchingState) (c : Cloud) :
    ((Update cfg s c).1).gnss_cnt = s.gnss_cnt := by
  simp [Update, localMapRefresh_gnss_cnt, predictorUpdate_gnss_cnt,
    updateSeedState_gnss_cnt, updateStaticInit_gnss_cnt]

theorem Update_global_map (cfg : MatchingConfig) (s : MatchingState) (c : Cloud) :
    ((Update cfg s c).1).global_map = s.global_map := by
  simp [Update, localMapRefresh_global_map, predictorUpdate_global_map,
    updateSeedState_global_map, updateStaticInit_global_map]

theorem Update_cleaned (cfg : MatchingConfig) (s : MatchingState) (c : Cloud) :
    (Update cfg s c).2.1 = c.filter fun p => p.isFinite := rfl

theorem Update_current_scan (cfg : MatchingConfig) (s : MatchingState) (c : Cloud) :
    ((Update cfg s c).1).current_scan =
      (c.filter fun p => p.isFinite).map (transformPoint (Update cfg s c).2.2) := by
  simp [Update, localMapRefresh_current_scan, predictorUpdate_current_scan]

theorem Update_cloud_pose (cfg : MatchingConfig) (s : MatchingState) (c : Cloud) :
    (Update cfg s c).2.2 =
      (cfg.scan_match (cfg.frame_filter (c.filter fun p => p.isFinite))
        (updateSeedState (updateStaticInit s)).predict_pose s.registration_target).2 := by
  simp only [Update]
  rw [updateSeedState_registration_target, updateStaticInit_registration_target]

theorem Update_last_pose (cfg : MatchingConfig) (s : MatchingState) (c : Cloud) :
    ((Update cfg s c).1).last_pose = (Update cfg s c).2.2 := by
  simp [Update, localMapRefresh_last_pose, predictorUpdate_last_pose]

theorem Update_predict_pose (cfg : MatchingConfig) (s : MatchingState) (c : Cloud) :
    ((Update cfg s c).1).predict_pose =
      (Update cfg s c).2.2 *
        (poseInv (updateSeedState (updateStaticInit s)).last_pose * (Update cfg s c).2.2) := by
  simp [Update, localMapRefresh_predict_pose, predictorUpdate_predict_pose]

theorem SetInitPose_global_map (cfg : MatchingConfig) (p : Pose) (s : MatchingState) :
    (SetInitPose cfg p s).global_map = s.global_map := rfl

theorem SetInitPose_has_inited (cfg : MatchingConfig) (p : Pose) (s : MatchingState) :
    (SetInitPose cfg p s).has_inited = s.has_inited := rfl

theorem SetInitPose_gnss_cnt (cfg : MatchingConfig) (p : Pose) (s : MatchingState) :
    (SetInitPose cfg p s).gnss_cnt = s.gnss_cnt := rfl

theorem SetGNSSPose_global_map (cfg : MatchingConfig) (p : Pose) (s : MatchingState) :
    (SetGNSSPose cfg p s).global_map = s.global_map := by
  simp only [SetGNSSPose]
  split
  · rfl
  · split <;> rfl

theorem SetGNSSPose_gnss_cnt (cfg : MatchingConfig) (p : Pose) (s : MatchingState) :
    (SetGNSSPose cfg p s).gnss_cnt = s.gnss_cnt + 1 := by
  simp only [SetGNSSPose]
  split
  · rfl
  · split <;> rfl

theorem SetGNSSPose_has_inited (cfg : MatchingConfig) (p : Pose) (s : MatchingState) :
    (SetGNSSPose cfg p s).has_inited = (s.has_inited || decide (3 < s.gnss_cnt)) := by
  simp only [SetGNSSPose]
  by_cases h0 : s.gnss_cnt = 0
  · have h3 : ¬ 3 < s.gnss_cnt := by omega
    simp [h0, h3, SetInitPose_has_inited]
  · by_cases h3 : 3 < s.gnss_cnt
    · simp [h0, h3]
    · simp [h0, h3]

theorem SetScanContextPose_global_map (cfg : MatchingConfig) (s : MatchingState)
    (scan : Cloud) : ((SetScanContextPose cfg s scan).1).global_map = s.global_map := by
  unfold SetScanContextPose
  rcases hc : cfg.scan_context scan with _ | p <;> simp [hc, SetInitPose_global_map]

theorem SetScanContextPose_gnss_cnt (cfg : MatchingConfig) (s : MatchingState)
    (scan : Cloud) : ((SetScanContextPose cfg s scan).1).gnss_cnt = s.gnss_cnt := by
  unfold SetScanContextPose
  rcases hc : cfg.scan_context scan with _ | p <;> simp [hc, SetInitPose_gnss_cnt]

theorem SetScanContextPose_has_inited_mono (cfg : MatchingConfig) (s : MatchingState)
    (scan : Cloud) (h : s.has_inited = true) :
    ((SetScanContextPose cfg s scan).1).has_inited = true := by
  unfold SetScanContextPose
  rcases hc : cfg.scan_context scan with _ | p <;> simp [hc, h]

theorem ResetLocalMap_has_new_local_map (cfg : MatchingConfig) (x y z : ℚ)
    (s : MatchingState) : (ResetLocalMap cfg x y z s).has_new_local_map = true := rfl

theorem SetInitPose_has_new_local_map (cfg : MatchingConfig) (p : Pose)
    (s : MatchingState) : (SetInitPose cfg p s).has_new_local_map = true := rfl

theorem updateStaticInit_has_new_local_map (s : MatchingState) :
    (updateStaticInit s).has_new_local_map = s.has_new_local_map := by
  unfold updateStaticInit; split <;> rfl

theorem updateSeedState_has_new_local_map (s : MatchingState) :
    (updateSeedState s).has_new_local_map = s.has_new_local_map := by
  unfold updateSeedState; split <;> rfl

theorem predictorUpdate_has_new_local_map (s : MatchingState) (p : Pose) :
    (predictorUpdate s p).has_new_local_map = s.has_new_local_map := rfl

theorem localMapRefresh_has_new_local_map_mono (cfg : MatchingConfig) (p : Pose)
    (s : MatchingState) (h : s.has_new_local_map = true) :
    (localMapRefresh cfg p s).has_new_local_map = true := by
  rcases localMapRefresh_cases cfg p s with hh | hh
  · rw [hh]; exact h
  · rw [hh]; exact ResetLocalMap_has_new_local_map cfg (p 0 3) (p 1 3) (p 2 3) s

theorem Update_has_new_local_map_mono (cfg : MatchingConfig) (s : MatchingState) (c : Cloud)
    (h : s.has_new_local_map = true) :
    ((Update cfg s c).1).has_new_local_map = true := by
  apply localMapRefresh_has_new_local_map_mono
  rw [predictorUpdate_has_new_local_map]
  show (updateSeedState (updateStaticInit s)).has_new_local_map = true
  rw [updateSeedState_has_new_local_map, updateStaticInit_has_new_local_map]
  exact h

theorem SetGNSSPose_has_new_local_map_mono (cfg : MatchingConfig) (p : Pose)
    (s : MatchingState) (h : s.has_new_local_map = true) :
    (SetGNSSPose cfg p s).has_new_local_map = true := by
  simp only [SetGNSSPose]
  split
  · rfl
  · split
    · exact h
    · exact h

theorem SetScanContextPose_has_new_local_map_mono (cfg : MatchingConfig)
    (s : MatchingState) (scan : Cloud) (h : s.has_new_local_map = true) :
    ((SetScanContextPose cfg s scan).1).has_new_local_map = true := by
  unfold SetScanContextPose
  rcases hc : cfg.scan_context scan with _ | p <;>
    simp [hc, h, SetInitPose_has_new_local_map]

end Matching

theorem stepOp_global_map (cfg : MatchingConfig) (s : MatchingState) (op : MatchingOp) :
    (stepOp cfg s op).global_map = s.global_map := by
  cases op with
  | coarseFix p => exact Matching.SetGNSSPose_global_map cfg p s
  | placeRec scan => exact Matching.SetScanContextPose_global_map cfg s scan
  | markInited => rfl
  | scanUpdate scan => exact Matching.Update_global_map cfg s scan
  | readGlobalMap => rfl
  | readLocalMap => rfl
  | readCurrentScan => rfl

theorem stepOp_has_inited_mono (cfg : MatchingConfig) (s : MatchingState) (op : MatchingOp)
    (h : s.has_inited = true) : (stepOp cfg s op).has_inited = true := by
  cases op with
  | coarseFix p => rw [stepOp, Matching.SetGNSSPose_has_inited, h, Bool.true_or]
  | placeRec scan => exact Matching.SetScanContextPose_has_inited_mono cfg s scan h
  | markInited => rfl
  | scanUpdate scan => rw [stepOp, Matching.Update_has_inited, h]
  | readGlobalMap => exact h
  | readLocalMap => exact h
  | readCurrentScan => exact h

theorem stepOp_gnss_pos (cfg : MatchingConfig) (s : MatchingState) (op : MatchingOp)
    (h : 0 < s.gnss_cnt) : 0 < (stepOp cfg s op).gnss_cnt := by
  cases op with
  | coarseFix p => rw [stepOp, Matching.SetGNSSPose_gnss_cnt]; omega
  | placeRec scan => rw [stepOp, Matching.SetScanContextPose_gnss_cnt]; exact h
  | markInited => exact h
  | scanUpdate scan => rw [stepOp, Matching.Update_gnss_cnt]; exact h
  | readGlobalMap => exact h
  | readLocalMap => exact h
  | readCurrentScan => exact h

theorem arbState_le_stepOp (cfg : MatchingConfig) (s : MatchingState) (op : MatchingOp) :
    arbState s ≤ arbState (stepOp cfg s op) := by
  unfold arbState
  by_cases hi : s.has_inited = true
  · simp [hi, stepOp_has_inited_mono cfg s op hi]
  · rw [Bool.not_eq_true] at hi
    by_cases hc : 0 < s.gnss_cnt
    · have h2 := stepOp_gnss_pos cfg s op hc
      simp only [hi, hc, h2, Bool.false_eq_true, if_false, if_true]
      split <;> omega
    · simp [hi, hc]

theorem runOps_cons (cfg : MatchingConfig) (s : MatchingState) (op : MatchingOp)
    (rest : List MatchingOp) :
    runOps cfg s (op :: rest) = runOps cfg (stepOp cfg s op) rest := rfl

theorem arbState_le_runOps (cfg : MatchingConfig) (ops : List MatchingOp) :
    ∀ s : MatchingState, arbState s ≤ arbState (runOps cfg s ops) := by
  induction ops with
  | nil => intro s; exact le_refl _
  | cons op rest ih =>
      intro s
      rw [runOps_cons]
      exact le_trans (arbState_le_stepOp cfg s op) (ih (stepOp cfg s op))

theorem runOps_has_inited_mono (cfg : MatchingConfig) (ops : List MatchingOp) :
    ∀ s : MatchingState, s.has_inited = true → (runOps cfg s ops).has_inited = true := by
  induction ops with
  | nil => intro s h; exact h
  | cons op rest ih =>
      intro s h
      rw [runOps_cons]
      exact ih (stepOp cfg s op) (stepOp_has_inited_mono cfg s op h)

theorem runOps_global_map (cfg : MatchingConfig) (ops : List MatchingOp) :
    ∀ s : MatchingState, (runOps cfg s ops).global_map = s.global_map := by
  induction ops with
  | nil => intro s; rfl
  | cons op rest ih =>
      intro s
      rw [runOps_cons, ih (stepOp cfg s op), stepOp_global_map]

theorem stepOp_has_new_local_map_mono (cfg : MatchingConfig) (s : MatchingState)
    (op : MatchingOp) (h : s.has_new_local_map = true) :
    (stepOp cfg s op).has_new_local_map = true := by
  cases op with
  | coarseFix p => exact Matching.SetGNSSPose_has_new_local_map_mono cfg p s h
  | placeRec scan => exact Matching.SetScanContextPose_has_new_local_map_mono cfg s scan h
  | markInited => exact h
  | scanUpdate scan => exact Matching.Update_has_new_local_map_mono cfg s scan h
  | readGlobalMap => exact h
  | readLocalMap => exact h
  | readCurrentScan => exact h

theorem runOps_has_new_local_map_mono (cfg : MatchingConfig) (ops : List MatchingOp) :
    ∀ s : MatchingState, s.has_new_local_map = true →
      (runOps cfg s ops).has_new_local_map = true := by
  induction ops with
  | nil => intro s h; exact h
  | cons op rest ih =>
      intro s h
      rw [runOps_cons]
      exact ih (stepOp cfg s op) (stepOp_has_new_local_map_mono cfg s op h)

theorem runCoarse_cons (cfg : MatchingConfig) (s : MatchingState) (p : Pose)
    (rest : List Pose) :
    runCoarse cfg s (p :: rest) = runCoarse cfg (Matching.SetGNSSPose cfg p s) rest := rfl

theorem decide_five_succ (n : ℕ) : (decide (5 ≤ n) || decide (3 < n)) = decide (5 ≤ n + 1) := by
  by_cases h : 3 < n
  · have h5 : 5 ≤ n + 1 := by omega
    simp [h, h5]
  · have h4 : ¬ 5 ≤ n := by omega
    have h5 : ¬ 5 ≤ n + 1 := by omega
    simp [h, h4, h5]

theorem runCoarse_cnt_inited (cfg : MatchingConfig) (poses : List Pose) :
    ∀ s : MatchingState, s.has_inited = decide (5 ≤ s.gnss_cnt) →
      (runCoarse cfg s poses).gnss_cnt = s.gnss_cnt + poses.length ∧
      (runCoarse cfg s poses).has_inited = decide (5 ≤ s.gnss_cnt + poses.length) := by
  induction poses with
  | nil => intro s h; exact ⟨rfl, by simpa using h⟩
  | cons p rest ih =>
      intro s h
      rw [runCoarse_cons]
      have hcnt : (Matching.SetGNSSPose cfg p s).gnss_cnt = s.gnss_cnt + 1 :=
        Matching.SetGNSSPose_gnss_cnt cfg p s
      have hin : (Matching.SetGNSSPose cfg p s).has_inited =
          decide (5 ≤ (Matching.SetGNSSPose cfg p s).gnss_cnt) := by
        rw [Matching.SetGNSSPose_has_inited, h, hcnt, decide_five_succ]
      obtain ⟨h1, h2⟩ := ih (Matching.SetGNSSPose cfg p s) hin
      have hlen : s.gnss_cnt + 1 + rest.length = s.gnss_cnt + (p :: rest).length := by
        simp [List.length_cons]; omega
      constructor
      · rw [h1, hcnt, hlen]
      · rw [h2, hcnt, hlen]

/-- C1 (counterexample): driving a fresh `Matching` object with four coarse
fixes does not reach Tracking — `IsTracking()` is still false after the 4th
`SubmitCoarseFix` call, contradicting the claim that the 4th call in total
suffices. -/
theorem c1_counterexample :
    Matching.HasInited (runCoarse cfgW (Matching.mkMatching cfgW []) [1, 1, 1, 1]) = false := by
  rfl

/-- C1 (amended): for every run driven only by coarse fixes, the arbiter
reaches Tracking exactly when at least 5 `SubmitCoarseFix` calls have
arrived: `IsTracking()` is false after the first four calls and becomes and
stays true from the 5th call on (the counter, incremented after the check,
must strictly exceed 3 at the start of a call). -/
theorem c1_tracking_after_five (cfg : MatchingConfig) (m : Cloud) (poses : List Pose) :
    Matching.HasInited (runCoarse cfg (Matching.mkMatching cfg m) poses) =
      decide (5 ≤ poses.length) := by
  show (runCoarse cfg (Matching.mkMatching cfg m) poses).has_inited = decide (5 ≤ poses.length)
  have h := runCoarse_cnt_inited cfg poses (Matching.mkMatching cfg m) rfl
  rw [h.2, show (Matching.mkMatching cfg m).gnss_cnt = 0 from rfl, Nat.zero_add]

/-- C2 (counterexample): with a local-map filter that actually downsamples
(here: drops every point), the global map stored after construction — the
cloud every recentring passes to the Spatial Region Filter — differs from the
loaded map, contradicting the claim that the unfiltered loaded global map is
the Region Filter input. -/
theorem c2_counterexample :
    (Matching.mkMatching cfgDrop [ptW]).global_map ≠ [ptW] := by
  decide

/-- C2 (amended): the stored global map equals the loaded map filtered once,
in place, by the local-map filter during `InitGlobalMap`; thereafter no
operation modifies it; every recentring passes this stored (filtered) global
map to the Spatial Region Filter; the visualization copy produced by
`GetGlobalMap` is a freshly derived artifact and leaves the stored map
unchanged. -/
theorem c2_global_map_invariant (cfg : MatchingConfig) (m : Cloud) (ops : List MatchingOp)
    (x y z : ℚ) (s : MatchingState) :
    (Matching.mkMatching cfg m).global_map = cfg.local_map_filter m ∧
    (runOps cfg (Matching.mkMatching cfg m) ops).global_map =
      (Matching.mkMatching cfg m).global_map ∧
    (Matching.ResetLocalMap cfg x y z s).local_map = cfg.box_filter (x, y, z) s.global_map ∧
    (Matching.ResetLocalMap cfg x y z s).global_map = s.global_map ∧
    (Matching.GetGlobalMap cfg s).2.global_map = s.global_map ∧
    (Matching.GetGlobalMap cfg s).1 = cfg.global_map_filter s.global_map :=
  ⟨rfl, runOps_global_map cfg ops _, rfl, rfl, rfl, rfl⟩

/-- C7: the initialization state machine is monotonic forward: over every
operation sequence the derived arbiter state (0 = Uninitialized, 1 =
CoarseFixPending, 2 = Tracking) never decreases — in particular it never
regresses from CoarseFixPending to Uninitialized — and from any state in
which `IsTracking()` holds it holds forever after. -/
theorem c7_monotonic (cfg : MatchingConfig) (s : MatchingState) (ops : List MatchingOp) :
    arbState s ≤ arbState (runOps cfg s ops) ∧
    Matching.HasInited (runOps cfg { s with has_inited := true } ops) = true :=
  ⟨arbState_le_runOps cfg ops s,
   runOps_has_inited_mono cfg ops { s with has_inited := true } rfl⟩

/-- C8 (counterexample): after the constructor's recentring, a consumer read
of the Local Map via `GetLocalMap` leaves the local-map dirty flag raised —
it is not cleared by the read, contradicting the claim. -/
theorem c8_counterexample :
    ¬ ((Matching.GetLocalMap (Matching.mkMatching cfgW [])).2.has_new_local_map = false) := by
  decide

/-- C8 (amended): the global-map dirty flag is set by its producer
(`InitGlobalMap`) and cleared by the `GlobalMapForDisplay` read
(`GetGlobalMap`); the local-map dirty flag is set by its producer (every
recentring) but never cleared by the core: a Local Map read changes no state
at all, and once the flag is raised it stays raised across every sequence of
core operations, consumer reads included. -/
theorem c8_dirty_flags (cfg : MatchingConfig) (m : Cloud) (s : MatchingState) (x y z : ℚ)
    (ops : List MatchingOp) :
    (Matching.InitGlobalMap cfg m s).has_new_global_map = true ∧
    (Matching.GetGlobalMap cfg s).2.has_new_global_map = false ∧
    (Matching.ResetLocalMap cfg x y z s).has_new_local_map = true ∧
    (Matching.GetLocalMap s).2 = s ∧
    (runOps cfg { s with has_new_local_map := true } ops).has_new_local_map = true :=
  ⟨rfl, rfl, rfl, rfl,
   runOps_has_new_local_map_mono cfg ops { s with has_new_local_map := true } rfl⟩

/-- C10: `Update` rewrites the caller's cloud in place to exactly the finite
points of the original scan (the NaN-removal output is returned as the
caller-visible cloud), and the transformed Current Scan artifact is computed
from this cleaned caller cloud by the refined pose. -/
theorem c10_update_in_place (cfg : MatchingConfig) (s : MatchingState) (cloud : Cloud) :
    (Matching.Update cfg s cloud).2.1 = cloud.filter (fun p => p.isFinite) ∧
    ((Matching.Update cfg s cloud).1).current_scan =
      (cloud.filter (fun p => p.isFinite)).map
        (transformPoint (Matching.Update cfg s cloud).2.2) :=
  ⟨Matching.Update_cleaned cfg s cloud, Matching.Update_current_scan cfg s cloud⟩

/-- C3: the refresh policy after a completed `Update` with refined pose
`cloud_pose`: if on every axis the pose coordinate is strictly farther than
50 from both edges of that axis, no recenter occurs (the state is returned
unchanged); otherwise, at the first axis (in the order x, y, z) whose guard
fails, the local map is recentred exactly once on the pose's translation,
and the result does not depend on the remaining axes. -/
theorem c3_refresh_policy (cfg : MatchingConfig) (s : MatchingState) (cloud_pose : Pose) :
    ((∀ i : Fin 3, Matching.axisSafe cloud_pose (cfg.box_edge s.box_origin) i = true) →
      Matching.localMapRefresh cfg cloud_pose s = s) ∧
    (∀ j : Fin 3,
      (∀ i : Fin 3, i < j →
        Matching.axisSafe cloud_pose (cfg.box_edge s.box_origin) i = true) →
      Matching.axisSafe cloud_pose (cfg.box_edge s.box_origin) j = false →
      Matching.localMapRefresh cfg cloud_pose s =
        Matching.ResetLocalMap cfg (cloud_pose 0 3) (cloud_pose 1 3) (cloud_pose 2 3) s) := by
  constructor
  · intro h
    simp [Matching.localMapRefresh, Matching.refreshLoop, h 0, h 1, h 2]
  · intro j h1 h2
    fin_cases j
    · have h2' : Matching.axisSafe cloud_pose (cfg.box_edge s.box_origin) 0 = false := h2
      simp [Matching.localMapRefresh, Matching.refreshLoop, h2']
    · have h0 : Matching.axisSafe cloud_pose (cfg.box_edge s.box_origin) 0 = true :=
        h1 0 (by decide)
      have h2' : Matching.axisSafe cloud_pose (cfg.box_edge s.box_origin) 1 = false := h2
      simp [Matching.localMapRefresh, Matching.refreshLoop, h0, h2']
    · have h0 : Matching.axisSafe cloud_pose (cfg.box_edge s.box_origin) 0 = true :=
        h1 0 (by decide)
      have hb : Matching.axisSafe cloud_pose (cfg.box_edge s.box_origin) 1 = true :=
        h1 1 (by decide)
      have h2' : Matching.axisSafe cloud_pose (cfg.box_edge s.box_origin) 2 = false := h2
      simp [Matching.localMapRefresh, Matching.refreshLoop, h0, hb, h2']

/-- C3 (witness): a configuration whose edges are all at 1000 makes every
axis safe for the identity pose, so no recenter occurs; a configuration whose
edges are all at 0 makes axis x trip, so the state is recentred on the pose
translation. -/
theorem c3_refresh_policy_witness :
    ((∀ i : Fin 3,
        Matching.axisSafe (0 : Pose)
          (cfgFar.box_edge (Matching.mkMatching cfgFar []).box_origin) i = true) ∧
      Matching.localMapRefresh cfgFar (0 : Pose) (Matching.mkMatching cfgFar []) =
        Matching.mkMatching cfgFar []) ∧
    (Matching.axisSafe (0 : Pose)
        (cfgW.box_edge (Matching.mkMatching cfgW []).box_origin) 0 = false ∧
      Matching.localMapRefresh cfgW (0 : Pose) (Matching.mkMatching cfgW []) =
        Matching.ResetLocalMap cfgW ((0 : Pose) 0 3) ((0 : Pose) 1 3) ((0 : Pose) 2 3)
          (Matching.mkMatching cfgW [])) := by
  have habs : |(0 : ℚ) - 1000| = 1000 := by
    rw [zero_sub, abs_neg]
    exact abs_of_nonneg (by norm_num)
  have hsafe : ∀ i : Fin 3,
      Matching.axisSafe (0 : Pose)
        (cfgFar.box_edge (Matching.mkMatching cfgFar []).box_origin) i = true := by
    intro i
    simp [Matching.axisSafe, cfgFar, cfgW, Matrix.zero_apply, habs]
    norm_num
  have hunsafe : Matching.axisSafe (0 : Pose)
      (cfgW.box_edge (Matching.mkMatching cfgW []).box_origin) 0 = false := by
    simp [Matching.axisSafe, cfgW, Matrix.zero_apply]
  refine ⟨⟨hsafe, ?_⟩, hunsafe, ?_⟩
  · exact (c3_refresh_policy cfgFar (Matching.mkMatching cfgFar []) 0).1 hsafe
  · exact (c3_refresh_policy cfgW (Matching.mkMatching cfgW []) 0).2 0 (by decide) hunsafe

/-- C4 (counterexample): after two coarse fixes with distinct poses and no
`Update` yet, the first `Update` call's static initialization seeds
`lastPose` from the committed initial pose — the first coarse fix — and not
from the most recent coarse fix, contradicting the claim that `lastPose` is
seeded from the most recent coarse-fix pose. -/
theorem c4_counterexample :
    (Matching.updateStaticInit sTwoFix).last_pose = (1 : Pose) ∧
    sTwoFix.current_gnss_pose = (2 : ℚ) • (1 : Pose) ∧
    (1 : Pose) ≠ (2 : ℚ) • (1 : Pose) := by
  refine ⟨rfl, rfl, ?_⟩
  intro h
  have h00 := congrFun (congrFun h 0) 0
  rw [Matrix.one_apply_eq, Matrix.smul_apply, Matrix.one_apply_eq, smul_eq_mul, mul_one] at h00
  norm_num at h00

/-- C4 (amended): while the arbiter is not yet Tracking, every `Update` call
uses the most recent coarse-fix pose as the registration seed (identity if
none has arrived, since a fresh object holds identity poses); `lastPose` and
the pre-overwrite `predictedPose` are seeded, at the first `Update` call
only, from the committed initial pose — the first coarse fix (or the
place-recognition pose) — not from the most recent coarse fix; once Tracking
is reached the seed is the Pose Predictor's `predictedPose`. -/
theorem c4_seed_selection (cfg : MatchingConfig) (s : MatchingState) (cloud m : Cloud) :
    (s.has_inited = false →
      (Matching.Update cfg s cloud).2.2 =
        (cfg.scan_match (cfg.frame_filter (cloud.filter fun p => p.isFinite))
          s.current_gnss_pose s.registration_target).2) ∧
    (s.has_inited = true →
      (Matching.Update cfg s cloud).2.2 =
        (cfg.scan_match (cfg.frame_filter (cloud.filter fun p => p.isFinite))
          (Matching.updateStaticInit s).predict_pose s.registration_target).2) ∧
    (s.update_called = false →
      (Matching.updateStaticInit s).last_pose = s.init_pose ∧
      (Matching.updateStaticInit s).predict_pose = s.init_pose) ∧
    ((Matching.mkMatching cfg m).current_gnss_pose = 1 ∧
      (Matching.mkMatching cfg m).init_pose = 1) := by
  refine ⟨?_, ?_, ?_, rfl, rfl⟩
  · intro h
    rw [Matching.Update_cloud_pose]
    have hin : (Matching.updateStaticInit s).has_inited = false := by
      rw [Matching.updateStaticInit_has_inited, h]
    rw [Matching.updateSeedState_of_not_inited _ hin, Matching.updateStaticInit_current_gnss_pose]
  · intro h
    rw [Matching.Update_cloud_pose]
    have hin : (Matching.updateStaticInit s).has_inited = true := by
      rw [Matching.updateStaticInit_has_inited, h]
    rw [Matching.updateSeedState_of_inited _ hin]
  · intro h
    unfold Matching.updateStaticInit
    simp [h]

/-- C4 (witness): the seed-selection facts instantiated on concrete states:
a fresh object (not tracking, statics not yet initialized) and the same
state with tracking forced. -/
theorem c4_seed_selection_witness :
    (Matching.initialState.has_inited = false ∧
      (Matching.Update cfgW Matching.initialState []).2.2 =
        (cfgW.scan_match (cfgW.frame_filter (List.filter (fun p => p.isFinite) []))
          Matching.initialState.current_gnss_pose
          Matching.initialState.registration_target).2) ∧
    ({ Matching.initialState with has_inited := true }.has_inited = true ∧
      (Matching.Update cfgW { Matching.initialState with has_inited := true } []).2.2 =
        (cfgW.scan_match (cfgW.frame_filter (List.filter (fun p => p.isFinite) []))
          (Matching.updateStaticInit
            { Matching.initialState with has_inited := true }).predict_pose
          { Matching.initialState with has_inited := true }.registration_target).2) ∧
    (Matching.initialState.update_called = false ∧
      (Matching.updateStaticInit Matching.initialState).last_pose =
        Matching.initialState.init_pose ∧
      (Matching.updateStaticInit Matching.initialState).predict_pose =
        Matching.initialState.init_pose) :=
  ⟨⟨rfl, (c4_seed_selection cfgW Matching.initialState [] []).1 rfl⟩,
   ⟨rfl, (c4_seed_selection cfgW { Matching.initialState with has_inited := true } [] []).2.1 rfl⟩,
   rfl,
   ((c4_seed_selection cfgW Matching.initialState [] []).2.2.1 rfl).1,
   ((c4_seed_selection cfgW Matching.initialState [] []).2.2.1 rfl).2⟩

/-- C5: after every `Update` call past the first (the statics already
initialized), with refined pose `P` the predictor state satisfies
`lastPose' = P` and `predictedPose' = P * (inverse(lastPose) * P)` where
`lastPose` is the predictor's value before the call. -/
theorem c5_predictor_update (cfg : MatchingConfig) (s : MatchingState) (cloud : Cloud)
    (h : s.update_called = true) :
    ((Matching.Update cfg s cloud).1).last_pose = (Matching.Update cfg s cloud).2.2 ∧
    ((Matching.Update cfg s cloud).1).predict_pose =
      (Matching.Update cfg s cloud).2.2 *
        (poseInv s.last_pose * (Matching.Update cfg s cloud).2.2) := by
  refine ⟨Matching.Update_last_pose cfg s cloud, ?_⟩
  rw [Matching.Update_predict_pose, Matching.updateSeedState_last_pose,
    Matching.updateStaticInit_of_called s h]

/-- C5 (witness): the predictor update rule instantiated on a concrete state
with the statics marked initialized. -/
theorem c5_predictor_update_witness :
    ({ Matching.initialState with update_called := true }.update_called = true) ∧
    ((Matching.Update cfgW { Matching.initialState with update_called := true } []).1).last_pose =
      (Matching.Update cfgW { Matching.initialState with update_called := true } []).2.2 ∧
    ((Matching.Update cfgW { Matching.initialState with update_called := true } []).1).predict_pose =
      (Matching.Update cfgW { Matching.initialState with update_called := true } []).2.2 *
        (poseInv { Matching.initialState with update_called := true }.last_pose *
          (Matching.Update cfgW { Matching.initialState with update_called := true } []).2.2) :=
  ⟨rfl,
   (c5_predictor_update cfgW { Matching.initialState with update_called := true } [] rfl).1,
   (c5_predictor_update cfgW { Matching.initialState with update_called := true } [] rfl).2⟩

/-- C6: `SubmitPlaceRecognition` with a scan the index matches commits the
proposed pose as initial pose, recentres the local map on it, transitions to
Tracking and reports success; with a scan the index does not match it
reports failure and leaves the whole state unchanged. -/
theorem c6_place_recognition (cfg : MatchingConfig) (s : MatchingState) (scan : Cloud) :
    (∀ p : Pose, cfg.scan_context scan = some p →
      (Matching.SetScanContextPose cfg s scan).2 = true ∧
      ((Matching.SetScanContextPose cfg s scan).1).init_pose = p ∧
      ((Matching.SetScanContextPose cfg s scan).1).has_inited = true ∧
      ((Matching.SetScanContextPose cfg s scan).1).box_origin = (p 0 3, p 1 3, p 2 3) ∧
      ((Matching.SetScanContextPose cfg s scan).1).local_map =
        cfg.box_filter (p 0 3, p 1 3, p 2 3) s.global_map ∧
      ((Matching.SetScanContextPose cfg s scan).1).has_new_local_map = true) ∧
    (cfg.scan_context scan = none → Matching.SetScanContextPose cfg s scan = (s, false)) := by
  constructor
  · intro p hp
    simp [Matching.SetScanContextPose, hp, Matching.SetInitPose, Matching.ResetLocalMap]
  · intro hn
    simp only [Matching.SetScanContextPose, hn]

/-- C6 (witness): both branches instantiated: an index that always proposes
the identity pose, and one that never matches. -/
theorem c6_place_recognition_witness :
    (cfgHit.scan_context [] = some 1 ∧
      (Matching.SetScanContextPose cfgHit Matching.initialState []).2 = true ∧
      ((Matching.SetScanContextPose cfgHit Matching.initialState []).1).has_inited = true) ∧
    (cfgW.scan_context [] = none ∧
      Matching.SetScanContextPose cfgW Matching.initialState [] =
        (Matching.initialState, false)) :=
  ⟨⟨rfl, ((c6_place_recognition cfgHit Matching.initialState []).1 1 rfl).1,
     ((c6_place_recognition cfgHit Matching.initialState []).1 1 rfl).2.2.1⟩,
   rfl, (c6_place_recognition cfgW Matching.initialState []).2 rfl⟩

/-- C9: fixpoint of the Pose Predictor under zero motion: if the refined
pose equals the predictor's current `lastPose` `P` (with `P` invertible),
the relative step becomes the identity and `predictedPose` equals `P`;
iterating the same refined pose keeps `predictedPose` and `lastPose` at `P`
forever. -/
theorem c9_zero_motion (s : MatchingState) (P : Pose) (hP : IsUnit P.det)
    (hlast : s.last_pose = P) :
    (Matching.predictorUpdate s P).step_pose = 1 ∧
    (Matching.predictorUpdate s P).predict_pose = P ∧
    ∀ n : ℕ, ((fun t => Matching.predictorUpdate t P)^[n + 1] s).predict_pose = P ∧
      ((fun t => Matching.predictorUpdate t P)^[n + 1] s).last_pose = P := by
  have hinv : poseInv P * P = 1 := by
    rw [poseInv_eq_inv]
    exact Matrix.nonsing_inv_mul P hP
  have hpred : ∀ t : MatchingState, t.last_pose = P →
      (Matching.predictorUpdate t P).predict_pose = P := by
    intro t ht
    rw [Matching.predictorUpdate_predict_pose, ht, hinv, mul_one]
  have hstep : (Matching.predictorUpdate s P).step_pose = 1 := by
    rw [Matching.predictorUpdate_step_pose, hlast, hinv]
  refine ⟨hstep, hpred s hlast, ?_⟩
  intro n
  induction n with
  | zero =>
      rw [Function.iterate_one]
      exact ⟨hpred s hlast, Matching.predictorUpdate_last_pose s P⟩
  | succ k ih =>
      have hit : (fun t => Matching.predictorUpdate t P)^[k + 1 + 1] s =
          Matching.predictorUpdate ((fun t => Matching.predictorUpdate t P)^[k + 1] s) P :=
        Function.iterate_succ_apply' (fun t => Matching.predictorUpdate t P) (k + 1) s
      rw [hit]
      exact ⟨hpred _ ih.2, Matching.predictorUpdate_last_pose _ P⟩

/-- C9 (witness): the fixpoint instantiated at the identity pose on a fresh
state, including three iterations. -/
theorem c9_zero_motion_witness :
    IsUnit (1 : Pose).det ∧ Matching.initialState.last_pose = (1 : Pose) ∧
    (Matching.predictorUpdate Matching.initialState 1).step_pose = 1 ∧
    (Matching.predictorUpdate Matching.initialState 1).predict_pose = 1 ∧
    ((fun t => Matching.predictorUpdate t (1 : Pose))^[3] Matching.initialState).predict_pose = 1 := by
  have hu : IsUnit (1 : Pose).det := by rw [Matrix.det_one]; exact isUnit_one
  exact ⟨hu, rfl, (c9_zero_motion Matching.initialState 1 hu rfl).1,
    (c9_zero_motion Matching.initialState 1 hu rfl).2.1,
    ((c9_zero_motion Matching.initialState 1 hu rfl).2.2 2).1⟩
